import Mathlib

/-!
Verification of the MovieListApp browser client (`static/app.js`) against its
natural-language specification.  The JavaScript is shallowly embedded: pure
functions become Lean functions, DOM-touching handlers become functions from
their inputs (element values, prompt/confirm results) to explicit descriptions
of the requests they send, the DOM they produce and the state they leave.
-/

namespace MovieListApp

/-! ## Formatter (`formatRuntime`, app.js lines 13-23) -/

/-- Model of JavaScript `String.prototype.trim`: drop whitespace characters
from both ends of the character list. -/
def jsTrimList (l : List Char) : List Char :=
  ((l.dropWhile Char.isWhitespace).reverse.dropWhile Char.isWhitespace).reverse

/-- `jsTrimList` lifted to strings. -/
def jsTrim (s : String) : String :=
  String.mk (jsTrimList s.data)

/-- Value of an all-digit character list read in base 10. -/
def digitsToNat (l : List Char) : Nat :=
  l.foldl (fun acc c => acc * 10 + (c.toNat - 48)) 0

/-- Model of JavaScript `parseInt(s, 10)` applied to a string that contains
only digit characters: `NaN` (here `none`) exactly on the empty string. -/
def parseIntOfDigits (l : List Char) : Option Nat :=
  if l = [] then none else some (digitsToNat l)

/-- Model of `m.toString().padStart(2, '0')` for `m < 100`. -/
def padTwo (n : Nat) : String :=
  if n < 10 then "0" ++ toString n else toString n

/-- The raw runtime value reaching `formatRuntime`: `null`/`undefined`, a
number (minutes), or a string. -/
inductive JSRuntime where
  | null
  | num (n : Nat)
  | str (s : String)
deriving DecidableEq

/-- `String(raw)` for the non-null cases. -/
def jsToString : JSRuntime → String
  | JSRuntime.null => ""
  | JSRuntime.num n => toString n
  | JSRuntime.str s => s

/-- Body of `formatRuntime` after the null check (app.js lines 15-22):
trim, return "" on the empty string, strip non-digits, `parseInt`, and on
success format `h:mm`. -/
def formatRuntimeCore (s : String) : String :=
  if jsTrimList s.data = [] then ""
  else
    match parseIntOfDigits ((jsTrimList s.data).filter Char.isDigit) with
    | none => ""
    | some n => toString (n / 60) ++ ":" ++ padTwo (n % 60)

/-- `formatRuntime` (app.js lines 13-23). -/
def formatRuntime : JSRuntime → String
  | JSRuntime.null => ""
  | JSRuntime.num n => formatRuntimeCore (toString n)
  | JSRuntime.str s => formatRuntimeCore s

/-- The spec's wording of the algorithm: "strip all non-digit characters,
parse the remainder as a base-10 integer; if parsing yields no valid integer,
return empty string; otherwise compute hours = floor(minutes/60), remaining =
minutes mod 60, format as hours:remaining zero-padded to 2 digits"; null
yields the empty string. -/
def formatRuntimeSpec (raw : JSRuntime) : String :=
  match raw with
  | JSRuntime.null => ""
  | _ =>
    match parseIntOfDigits ((jsToString raw).data.filter Char.isDigit) with
    | none => ""
    | some n => toString (n / 60) ++ ":" ++ padTwo (n % 60)

theorem ws_not_digit (c : Char) (h : c.isWhitespace = true) : c.isDigit = false := by
  simp [Char.isWhitespace] at h
  rcases h with ((h | h) | h) | h <;> subst h <;> decide

theorem filter_digit_dropWhile_ws (l : List Char) :
    (l.dropWhile Char.isWhitespace).filter Char.isDigit = l.filter Char.isDigit := by
  induction l with
  | nil => rfl
  | cons c cs ih =>
    simp only [List.dropWhile_cons, List.filter_cons]
    by_cases h : Char.isWhitespace c
    · simp [h, ws_not_digit c h, ih]
    · simp [h, List.filter_cons]

theorem filter_digit_jsTrimList (l : List Char) :
    (jsTrimList l).filter Char.isDigit = l.filter Char.isDigit := by
  unfold jsTrimList
  rw [List.filter_reverse, filter_digit_dropWhile_ws, List.filter_reverse,
    List.reverse_reverse, filter_digit_dropWhile_ws]

theorem formatRuntimeCore_eq_spec (s : String) :
    formatRuntimeCore s =
      (match parseIntOfDigits (s.data.filter Char.isDigit) with
       | none => ""
       | some n => toString (n / 60) ++ ":" ++ padTwo (n % 60)) := by
  unfold formatRuntimeCore
  by_cases h : jsTrimList s.data = []
  · have h2 : s.data.filter Char.isDigit = [] := by
      rw [← filter_digit_jsTrimList, h]
      rfl
    rw [if_pos h, h2]
    rfl
  · rw [if_neg h, filter_digit_jsTrimList]

/-- Claim C3: `formatRuntime` strips all non-digit characters, parses the
remainder base 10, returns "" when no valid integer results (including null
and all-non-digit strings), and otherwise returns floor(n/60), a colon, and
n mod 60 zero-padded to two digits; in particular `formatRuntime 125 = "2:05"`,
`formatRuntime "142 min" = "2:22"`, and `""`, `null`, `"abc"` all map to `""`. -/
theorem C3_formatRuntime :
    (∀ raw, formatRuntime raw = formatRuntimeSpec raw) ∧
    formatRuntime (JSRuntime.num 125) = "2:05" ∧
    formatRuntime (JSRuntime.str "142 min") = "2:22" ∧
    formatRuntime (JSRuntime.str "") = "" ∧
    formatRuntime JSRuntime.null = "" ∧
    formatRuntime (JSRuntime.str "abc") = "" := by
  refine ⟨?_, by decide, by decide, by decide, rfl, by decide⟩
  intro raw
  cases raw with
  | null => rfl
  | num n => exact formatRuntimeCore_eq_spec (toString n)
  | str s => exact formatRuntimeCore_eq_spec s

/-! ## Renderer (`renderList`, app.js lines 72-156) -/

/-- A movie record as delivered in a Listing.  `synopsis = none` models an
absent property. -/
structure Movie where
  id : String
  title : String
  runtime : JSRuntime
  synopsis : Option String
deriving DecidableEq

/-- A Listing: year → genre → movies, keys in `Object.keys` iteration order,
modelled as nested association lists. -/
abbrev Listing := List (String × List (String × List Movie))

/-- A DOM node: tag, class attribute, own text content, children. -/
inductive Node where
  | el (tag : String) (className : String) (text : String) (children : List Node)

/-- One `<li>` movie entry (app.js lines 95-148): title span, optional
runtime span, Remove and Edit buttons, optional synopsis paragraph guarded
by `movie.synopsis && movie.synopsis.trim()`. -/
def renderMovieEntry (m : Movie) : Node :=
  let formatted := formatRuntime m.runtime
  let children1 := [Node.el "span" "" m.title []]
  let children2 :=
    if formatted = "" then children1
    else children1 ++ [Node.el "span" "runtime" (" (" ++ formatted ++ ")") []]
  let children3 := children2 ++ [Node.el "button" "" "Remove" [], Node.el "button" "" "Edit" []]
  let children4 :=
    if jsTrim (m.synopsis.getD "") = "" then children3
    else children3 ++ [Node.el "p" "synopsis" (m.synopsis.getD "") []]
  Node.el "li" "" "" children4

/-- One genre block (app.js lines 86-152): a `div.genre` with an `<h4>`
heading and a `<ul>` of movie entries. -/
def renderGenreBlock (genre : String) (movies : List Movie) : Node :=
  Node.el "div" "genre" ""
    [Node.el "h4" "" genre [], Node.el "ul" "" "" (movies.map renderMovieEntry)]

/-- One year block (app.js lines 79-155): a `div.year` with an `<h3>` heading
followed by its genre blocks. -/
def renderYearBlock (year : String) (genres : List (String × List Movie)) : Node :=
  Node.el "div" "year" ""
    (Node.el "h3" "" year [] :: genres.map (fun g => renderGenreBlock g.1 g.2))

/-- `renderList(container, listing)` (app.js lines 72-156): the result is the
container's content after the call.  The prior content is discarded first
(`container.innerHTML = ''`); an empty listing yields only the placeholder
paragraph; otherwise one year block is appended per year key. -/
def renderList (container : List Node) (listing : Listing) : List Node :=
  let cleared : List Node := []
  match listing with
  | [] => [Node.el "p" "" "No movies in list yet." []]
  | ys => cleared ++ ys.map (fun y => renderYearBlock y.1 y.2)

/-- A node belonging to the year/genre/movie hierarchy (rather than a
placeholder paragraph). -/
def isHierarchyNode : Node → Bool
  | Node.el tag cls _ _ =>
    cls == "year" || cls == "genre" || tag == "ul" || tag == "li" || tag == "h3" || tag == "h4"

/-- Claim C4: rendering is an idempotent full replacement — the output does
not depend on the container's prior content, and rendering the same Listing
twice into the same container yields identical DOM both times. -/
theorem C4_render_idempotent (c c2 : List Node) (listing : Listing) :
    renderList c listing = renderList c2 listing ∧
    renderList (renderList c listing) listing = renderList c listing := by
  cases listing <;> exact ⟨rfl, rfl⟩

/-- Claim C7: the empty Listing renders exactly the "No movies in list yet."
placeholder and no year/genre/movie hierarchy nodes. -/
theorem C7_empty_listing (c : List Node) :
    renderList c [] = [Node.el "p" "" "No movies in list yet." []] ∧
    (renderList c []).all (fun n => !(isHierarchyNode n)) = true :=
  ⟨rfl, rfl⟩

/-! ## Selection & Refresh controller (`window.refreshList`, app.js 178-188) -/

/-- The idiom `select ? select.value : 'default'` used by every handler:
`none` models an absent `#list-select` element. -/
def listNameFrom (select : Option String) : String :=
  match select with
  | some v => v
  | none => "default"

/-- What `refreshList` leaves in the list container. -/
inductive RenderedView where
  | pickListMessage
  | listingView (list_name : String)
deriving DecidableEq

/-- Observable outcome of one `refreshList` call: the `getList` fetches it
issues and the view it renders. -/
structure RefreshOutcome where
  fetches : List String
  view : RenderedView
deriving DecidableEq

/-- `window.refreshList` (app.js lines 178-188): empty list name renders the
pick-a-list prompt and fetches nothing; otherwise the Listing for the name is
fetched and rendered. -/
def refreshList (select : Option String) : RefreshOutcome :=
  if listNameFrom select = "" then { fetches := [], view := RenderedView.pickListMessage }
  else
    { fetches := [listNameFrom select],
      view := RenderedView.listingView (listNameFrom select) }

/-- Claim C5: Refresh with an empty Selection State renders the placeholder
and fetches nothing; otherwise it fetches exactly the selected list's Listing
and hands it to the renderer. -/
theorem C5_refresh (sel : Option String) :
    (listNameFrom sel = "" →
      refreshList sel = { fetches := [], view := RenderedView.pickListMessage }) ∧
    (listNameFrom sel ≠ "" →
      refreshList sel =
        { fetches := [listNameFrom sel],
          view := RenderedView.listingView (listNameFrom sel) }) := by
  constructor <;> intro h <;> simp [refreshList, h]

theorem C5_refresh_witness :
    refreshList (some "") = { fetches := [], view := RenderedView.pickListMessage } ∧
    refreshList (some "Favorites") =
      { fetches := ["Favorites"], view := RenderedView.listingView "Favorites" } :=
  ⟨(C5_refresh (some "")).1 rfl, (C5_refresh (some "Favorites")).2 (by decide)⟩

/-! ## Remove and Add request payloads (app.js lines 115-125 and 261-266) -/

/-- Body of the `/api/remove` POST built by the remove-button handler. -/
structure RemoveRequest where
  id : String
  year : String
  genre : String
  list_name : String
deriving DecidableEq

/-- The remove-button handler's request (app.js lines 117-123): year and genre
are the ones bound at render time, the list name read from the dropdown with
the `'default'` fallback. -/
def removeRequest (m : Movie) (year genre : String) (select : Option String) : RemoveRequest :=
  { id := m.id, year := year, genre := genre, list_name := listNameFrom select }

/-- Body of the `/api/add` POST built by the add-button handler. -/
structure AddRequest where
  id : String
  list_name : String
deriving DecidableEq

/-- The add-button handler's request (app.js lines 262-264). -/
def addRequest (id : String) (select : Option String) : AddRequest :=
  { id := id, list_name := listNameFrom select }

/-! ## Edit modal controller (app.js lines 284-335) -/

/-- The transient editing context `{id, origYear, origGenre}` (app.js 175, 287). -/
structure EditingContext where
  id : String
  origYear : String
  origGenre : String
deriving DecidableEq

/-- The modal form's field values at save time; `synopsis = none` models an
absent `#edit-synopsis` element. -/
structure EditForm where
  title : String
  year : String
  genre : String
  synopsis : Option String
deriving DecidableEq

/-- The partial-update payload sent to `/api/update`: `none` fields are
omitted from the JSON body. -/
structure UpdatePayload where
  id : String
  new_title : Option String
  new_year : Option String
  new_genre : Option String
  new_synopsis : Option String
  list_name : String
deriving DecidableEq

/-- Models `v && v.trim()`: the empty string is falsy and is returned as is,
otherwise the trimmed string. -/
def jsAndTrim (v : String) : String :=
  if v = "" then v else jsTrim v

/-- Model of `s.slice(0, 250)`: keep the first 250 characters. -/
def jsSlice250 (s : String) : String :=
  String.mk (s.data.take 250)

/-- The payload built by the `modalSave` click handler once the editing
context is known non-null (app.js lines 310-323).  A field of
{title, year, genre} is included iff `value && value.trim()` is truthy; the
synopsis is included iff the raw value is non-empty, with value
`raw.trim().slice(0, 250)`. -/
def modalSavePayload (ctx : EditingContext) (form : EditForm) (select : Option String) :
    UpdatePayload :=
  { id := ctx.id,
    new_title := if jsAndTrim form.title = "" then none else some (jsAndTrim form.title),
    new_year := if jsAndTrim form.year = "" then none else some (jsAndTrim form.year),
    new_genre := if jsAndTrim form.genre = "" then none else some (jsAndTrim form.genre),
    new_synopsis :=
      if form.synopsis.getD "" = "" then none
      else some (jsSlice250 (jsTrim (form.synopsis.getD ""))),
    list_name := listNameFrom select }

/-- The `modalSave` click handler (app.js lines 308-332): a save with no
editing context is a no-op (`none`), otherwise the update payload is sent. -/
def modalSave (ctx : Option EditingContext) (form : EditForm) (select : Option String) :
    Option UpdatePayload :=
  match ctx with
  | none => none
  | some c => some (modalSavePayload c form select)

set_option maxRecDepth 4096 in
/-- Claim C2 as stated is false: the save handler decides whether to include
`new_synopsis` from the synopsis field's raw value, not its trimmed value.
With a whitespace-only synopsis the field is empty after trimming, yet
`new_synopsis = ""` is included in the payload. -/
theorem C2_counterexample :
    jsTrim "   " = "" ∧
    (modalSavePayload ⟨"m1", "2001", "Drama"⟩
        ⟨"New Title", "", "", some "   "⟩ (some "mylist")).new_synopsis = some "" :=
  ⟨rfl, rfl⟩

/-- Claim C2 (amended): the payload carries the movie id and the current list
name; each of new_title/new_year/new_genre is included, trimmed, exactly when
the corresponding field is non-blank after trimming; new_synopsis — trimmed
and truncated to 250 characters — is included exactly when the synopsis field
is non-empty before trimming. -/
theorem C2_amended_payload (ctx : EditingContext) (form : EditForm) (sel : Option String) :
    modalSave (some ctx) form sel = some (modalSavePayload ctx form sel) ∧
    (modalSavePayload ctx form sel).id = ctx.id ∧
    (modalSavePayload ctx form sel).list_name = listNameFrom sel ∧
    (modalSavePayload ctx form sel).new_title =
      (if jsTrim form.title = "" then none else some (jsTrim form.title)) ∧
    (modalSavePayload ctx form sel).new_year =
      (if jsTrim form.year = "" then none else some (jsTrim form.year)) ∧
    (modalSavePayload ctx form sel).new_genre =
      (if jsTrim form.genre = "" then none else some (jsTrim form.genre)) ∧
    (modalSavePayload ctx form sel).new_synopsis =
      (if form.synopsis.getD "" = "" then none
       else some (jsSlice250 (jsTrim (form.synopsis.getD "")))) := by
  have key : ∀ v : String,
      (if jsAndTrim v = "" then (none : Option String) else some (jsAndTrim v)) =
      (if jsTrim v = "" then none else some (jsTrim v)) := by
    intro v
    by_cases hv : v = ""
    · subst hv; rfl
    · simp [jsAndTrim, hv]
  exact ⟨rfl, rfl, rfl, key form.title, key form.year, key form.genre, rfl⟩

/-! ## List management controller (app.js lines 357-400) -/

/-- Network calls a list-management handler can issue. -/
inductive NetCall where
  | renameCall (oldName newName : String)
  | deleteCall (name : String)
  | getListsCall
deriving DecidableEq

/-- Operations on the live-update stream a handler can perform. -/
inductive StreamOp where
  | openFor (list_name : String)
  | closeStream
deriving DecidableEq

/-- Observable outcome of one rename/delete handler run. -/
structure HandlerResult where
  netCalls : List NetCall
  alerted : Bool
  finalSelect : String
  refreshed : Bool
  streamOps : List StreamOp
deriving DecidableEq

/-- The rename-button click handler (app.js lines 381-390): guard on empty or
`default` selection (alert, no network); abort silently when the prompt is
cancelled, empty, or returns the current name; otherwise rename, repopulate
the dropdown, re-select the trimmed new name and refresh.  The handler never
touches the stream. -/
def renameHandler (selectValue : String) (promptResult : Option String) : HandlerResult :=
  if selectValue = "" ∨ selectValue = "default" then
    { netCalls := [], alerted := true, finalSelect := selectValue,
      refreshed := false, streamOps := [] }
  else
    match promptResult with
    | none =>
      { netCalls := [], alerted := false, finalSelect := selectValue,
        refreshed := false, streamOps := [] }
    | some newName =>
      if newName = "" ∨ newName = selectValue then
        { netCalls := [], alerted := false, finalSelect := selectValue,
          refreshed := false, streamOps := [] }
      else
        { netCalls := [NetCall.renameCall selectValue (jsTrim newName), NetCall.getListsCall],
          alerted := false, finalSelect := jsTrim newName, refreshed := true, streamOps := [] }

/-- The delete-button click handler (app.js lines 392-400): guard on empty or
`default` selection (alert, no network); abort silently when the confirm is
declined; otherwise delete, repopulate the dropdown, clear the selection and
refresh.  The handler never touches the stream. -/
def deleteHandler (selectValue : String) (confirmResult : Bool) : HandlerResult :=
  if selectValue = "" ∨ selectValue = "default" then
    { netCalls := [], alerted := true, finalSelect := selectValue,
      refreshed := false, streamOps := [] }
  else if confirmResult then
    { netCalls := [NetCall.deleteCall selectValue, NetCall.getListsCall],
      alerted := false, finalSelect := "", refreshed := true, streamOps := [] }
  else
    { netCalls := [], alerted := false, finalSelect := selectValue,
      refreshed := false, streamOps := [] }

/-- Claim C6: rename or delete with the selection empty or `default` issues
zero network calls and surfaces a blocking warning instead. -/
theorem C6_guard (sel : String) (prompt : Option String) (confirmOk : Bool)
    (h : sel = "" ∨ sel = "default") :
    (renameHandler sel prompt).netCalls = [] ∧
    (renameHandler sel prompt).alerted = true ∧
    (deleteHandler sel confirmOk).netCalls = [] ∧
    (deleteHandler sel confirmOk).alerted = true := by
  unfold renameHandler deleteHandler
  rw [if_pos h, if_pos h]
  exact ⟨rfl, rfl, rfl, rfl⟩

theorem C6_guard_witness :
    (("default" : String) = "" ∨ ("default" : String) = "default") ∧
    (renameHandler "default" none).netCalls = [] ∧
    (renameHandler "default" none).alerted = true ∧
    (deleteHandler "default" true).netCalls = [] ∧
    (deleteHandler "default" true).alerted = true :=
  ⟨Or.inr rfl, C6_guard "default" none true (Or.inr rfl)⟩

/-- Claim C10: a rename attempt whose prompt yields an empty name or the
current name issues no network calls and leaves the dropdown (never
repopulated), the selection and the stream unchanged. -/
theorem C10_rename_abort (sel : String) (res : Option String)
    (h : res = none ∨ res = some "" ∨ res = some sel) :
    (renameHandler sel res).netCalls = [] ∧
    (renameHandler sel res).finalSelect = sel ∧
    (renameHandler sel res).refreshed = false ∧
    (renameHandler sel res).streamOps = [] := by
  rcases h with h | h | h <;> subst h <;>
    by_cases hg : sel = "" ∨ sel = "default" <;>
      simp [renameHandler, hg]

theorem C10_rename_abort_witness :
    ((none : Option String) = none ∨ (none : Option String) = some "" ∨
      (none : Option String) = some "mylist") ∧
    (renameHandler "mylist" none).netCalls = [] ∧
    (renameHandler "mylist" none).finalSelect = "mylist" ∧
    (renameHandler "mylist" none).refreshed = false ∧
    (renameHandler "mylist" none).streamOps = [] :=
  ⟨Or.inl rfl, C10_rename_abort "mylist" none (Or.inl rfl)⟩

/-! ## Live update channel (app.js lines 210-234, 402-413) -/

/-- The channel's mutable resources: the `es` EventSource handle and the
number of 5-second polling intervals currently running.  The `setInterval`
identifier is never stored by the source, so an interval can never be
cleared once started. -/
structure StreamState where
  es : Option String
  timers : Nat
deriving DecidableEq

/-- `openStreamFor(list_name)` (app.js lines 212-234): close any prior
EventSource, then either open a new one for `list_name` (when the
constructor succeeds, `ctorOk = true`) or start a new polling interval whose
identifier is discarded. -/
def openStreamFor (ctorOk : Bool) (list_name : String) (st : StreamState) : StreamState :=
  let closed : StreamState := { st with es := none }
  if ctorOk then { closed with es := some list_name }
  else { closed with timers := closed.timers + 1 }

/-- User actions driving the channel.  `ctorOk` records whether the
EventSource constructor succeeds during that action. -/
inductive ChannelAction where
  | dropdownChange (value : String) (ctorOk : Bool)
  | createListAct (name : String) (ctorOk : Bool)
  | renameAct
  | deleteAct
deriving DecidableEq

/-- Effect of each action on the stream state: the dropdown-change handler
(app.js 402-413) closes the stream on empty value and otherwise calls
`openStreamFor`; the create handler (368-373) calls `openStreamFor`; the
rename and delete handlers (381-400) never touch the stream. -/
def stepChannel (st : StreamState) : ChannelAction → StreamState
  | ChannelAction.dropdownChange v ok =>
    if v = "" then { st with es := none } else openStreamFor ok v st
  | ChannelAction.createListAct n ok => openStreamFor ok n st
  | ChannelAction.renameAct => st
  | ChannelAction.deleteAct => st

def runChannel (st : StreamState) (acts : List ChannelAction) : StreamState :=
  acts.foldl stepChannel st

/-- Number of live subscriptions plus polling timers. -/
def activeCount (st : StreamState) : Nat :=
  (match st.es with | some _ => 1 | none => 0) + st.timers

def initStream : StreamState := { es := none, timers := 0 }

/-- Claim C1 fails on the code: when the EventSource constructor throws and
the handler falls back to polling, the interval identifier is discarded, so
selecting list "a" and then list "b" leaves two polling timers running —
the new one is established without tearing the old one down. -/
theorem C1_timer_leak :
    activeCount (runChannel initStream
      [ChannelAction.dropdownChange "a" false,
       ChannelAction.dropdownChange "b" false]) = 2 := rfl

/-! ## Mutation-then-Refresh sequencing (claim C8) -/

/-- Events observable while one handler runs: a request sent, its response
received, and an invocation of `refreshList`. -/
inductive Ev where
  | req (op : String)
  | resp (op : String)
  | refreshEv
deriving DecidableEq

/-- Remove-button handler trace (app.js 115-125): confirm, `await fetch`
of `/api/remove`, then `await window.refreshList()`. -/
def removeEvents (confirmOk : Bool) : List Ev :=
  if confirmOk then [Ev.req "remove", Ev.resp "remove", Ev.refreshEv] else []

/-- Add-button handler trace (app.js 261-266): `await addMovie`, then
`refreshList()` is invoked (not awaited). -/
def addEvents : List Ev := [Ev.req "add", Ev.resp "add", Ev.refreshEv]

/-- Modal-save handler trace (app.js 308-332): no-op without an editing
context; otherwise `await fetch` of `/api/update`, then
`await window.refreshList()`. -/
def updateEvents (ctx : Option EditingContext) : List Ev :=
  match ctx with
  | none => []
  | some _ => [Ev.req "update", Ev.resp "update", Ev.refreshEv]

/-- Clear-button handler trace (app.js 345-355): confirm, `await fetch` of
`/api/clear`, then `await window.refreshList()`. -/
def clearEvents (confirmOk : Bool) : List Ev :=
  if confirmOk then [Ev.req "clear", Ev.resp "clear", Ev.refreshEv] else []

/-- New-list handler trace (app.js 363-379): abort on cancelled or empty
prompt; otherwise `await createList`, `await refreshListsDropdown` (a
`getLists` fetch), then `await window.refreshList()`. -/
def createEvents (promptName : Option String) : List Ev :=
  match promptName with
  | none => []
  | some n =>
    if n = "" then []
    else [Ev.req "createList", Ev.resp "createList",
          Ev.req "getLists", Ev.resp "getLists", Ev.refreshEv]

/-- Rename-button handler trace (app.js 381-390). -/
def renameEvents (sel : String) (promptResult : Option String) : List Ev :=
  if sel = "" ∨ sel = "default" then []
  else
    match promptResult with
    | none => []
    | some n =>
      if n = "" ∨ n = sel then []
      else [Ev.req "renameList", Ev.resp "renameList",
            Ev.req "getLists", Ev.resp "getLists", Ev.refreshEv]

/-- Delete-button handler trace (app.js 392-400). -/
def deleteEvents (sel : String) (confirmOk : Bool) : List Ev :=
  if sel = "" ∨ sel = "default" then []
  else if confirmOk then
    [Ev.req "deleteList", Ev.resp "deleteList",
     Ev.req "getLists", Ev.resp "getLists", Ev.refreshEv]
  else []

/-- Dropdown-change handler trace (app.js 402-413): the refresh runs first,
then the stream is rewired; there is no mutation request. -/
def dropdownChangeEvents : List Ev := [Ev.refreshEv]

/-- Every `refreshEv` in the trace occurs strictly after a `resp o`. -/
def refreshOnlyAfterResp (o : String) : List Ev → Bool → Bool
  | [], _ => true
  | Ev.refreshEv :: rest, seen => seen && refreshOnlyAfterResp o rest seen
  | Ev.resp p :: rest, seen => refreshOnlyAfterResp o rest (seen || p == o)
  | Ev.req _ :: rest, seen => refreshOnlyAfterResp o rest seen

/-- The trace refreshes only after the mutation's response, and refreshes at
all whenever the mutation request was sent. -/
def sequentialRefresh (t : List Ev) (o : String) : Bool :=
  refreshOnlyAfterResp o t false &&
  (!(t.contains (Ev.req o)) || t.contains Ev.refreshEv)

/-- Claim C8: every mutation path (add, remove, update, clear, list
create/rename/delete, dropdown change) invokes Refresh after its network
operation, and only after that operation's response is received. -/
theorem C8_refresh_after_mutation :
    (∀ c, sequentialRefresh (removeEvents c) "remove" = true) ∧
    sequentialRefresh addEvents "add" = true ∧
    (∀ ctx, sequentialRefresh (updateEvents ctx) "update" = true) ∧
    (∀ c, sequentialRefresh (clearEvents c) "clear" = true) ∧
    (∀ p, sequentialRefresh (createEvents p) "createList" = true) ∧
    (∀ s p, sequentialRefresh (renameEvents s p) "renameList" = true) ∧
    (∀ s c, sequentialRefresh (deleteEvents s c) "deleteList" = true) ∧
    dropdownChangeEvents.contains Ev.refreshEv = true := by
  refine ⟨?_, rfl, ?_, ?_, ?_, ?_, ?_, rfl⟩
  · intro c; cases c <;> rfl
  · intro ctx; cases ctx <;> rfl
  · intro c; cases c <;> rfl
  · intro p
    cases p with
    | none => rfl
    | some n => simp only [createEvents]; split <;> rfl
  · intro s p
    cases p with
    | none => simp only [renameEvents]; split <;> rfl
    | some n =>
      simp only [renameEvents]
      split
      · rfl
      · split <;> rfl
  · intro s c
    simp only [deleteEvents]
    split
    · rfl
    · split <;> rfl

/-- Claim C9: with the `#list-select` element absent, Refresh, Remove, Add
and edit Save all fall back to the list name `default`; Refresh fetches the
default Listing rather than rendering the no-selection placeholder. -/
theorem C9_default_fallback :
    (refreshList none).view = RenderedView.listingView "default" ∧
    (refreshList none).fetches = ["default"] ∧
    (∀ m y g, (removeRequest m y g none).list_name = "default") ∧
    (∀ i, (addRequest i none).list_name = "default") ∧
    (∀ ctx form, (modalSavePayload ctx form none).list_name = "default") := by
  exact ⟨rfl, rfl, fun _ _ _ => rfl, fun _ => rfl, fun _ _ => rfl⟩

end MovieListApp
